import Mathlib

/-!
Verification of the OTX ATSS model interpreter
(`datumaro/plugins/openvino_plugin/samples/otx_custom_object_detection_gen3_atss_interp.py`).

The interpreter's two helpers, `rescale_img_keeping_aspect_ratio` and
`create_bboxes_with_rescaling`, live in
`datumaro/plugins/openvino_plugin/samples/utils.py`, which is not part of the
sources at hand; they are modelled from the specification's description of
their behaviour.  Everything else (`preprocess`, `postprocess`,
`get_categories`, the fixed model dimensions) is translated directly from the
interpreter source.  Real arithmetic (Python floats) is embedded as exact
rationals `ℚ`.
-/

/-- A decoded image: a `height × width × channels` array of pixel
intensities, addressed as `pixel y x c`. -/
structure Image where
  height : ℕ
  width : ℕ
  channels : ℕ
  pixel : ℕ → ℕ → ℕ → ℕ

/-- A channel-first (CHW) tensor, the layout produced by
`image.transpose(2, 0, 1)`. -/
structure Tensor3 where
  dim0 : ℕ
  dim1 : ℕ
  dim2 : ℕ
  val : ℕ → ℕ → ℕ → ℕ

/-- Result record of the rescaling helper: the letterboxed image together
with the scalar scale factor that was applied. -/
structure RescaledImage where
  image : Image
  scale : ℚ

/-- Fixed class-level model input height of `OTXATSSModelInterpreter`. -/
def h_model : ℕ := 736

/-- Fixed class-level model input width of `OTXATSSModelInterpreter`. -/
def w_model : ℕ := 992

/-- Modelled from the spec: the aspect-ratio-preserving scale factor used by
the missing helper `rescale_img_keeping_aspect_ratio`,
`s = min(targetH / imageH, targetW / imageW)`. -/
def rescaleScale (h w hm wm : ℕ) : ℚ :=
  min ((hm : ℚ) / (h : ℚ)) ((wm : ℚ) / (w : ℚ))

/-- Modelled from the spec: the resized height `round(imageH * s)`
("resize the image to `(imageH*s, imageW*s)`, rounded to integers"). -/
def resizedH (h w hm wm : ℕ) : ℕ :=
  (round ((h : ℚ) * rescaleScale h w hm wm)).toNat

/-- Modelled from the spec: the resized width `round(imageW * s)`. -/
def resizedW (h w hm wm : ℕ) : ℕ :=
  (round ((w : ℚ) * rescaleScale h w hm wm)).toNat

/-- Resampling of an image to a new spatial size (nearest-neighbour
sampling; the spec fixes only the target size of the resize, not the
interpolation kernel). -/
def resizeNN (img : Image) (h2 w2 : ℕ) : Image :=
  { height := h2
    width := w2
    channels := img.channels
    pixel := fun y x c => img.pixel (y * img.height / h2) (x * img.width / w2) c }

/-- Modelled from the spec: the missing helper
`rescale_img_keeping_aspect_ratio(img, h_model, w_model)`.  It computes the
single scale factor `s = min(targetH/imageH, targetW/imageW)`, resizes the
image to `(imageH*s, imageW*s)` rounded to integers, and places the resized
image into a zero-padded canvas of exactly `(targetH, targetW)`, padding
occupying the right/bottom remainder; it returns the canvas and `s`. -/
def rescale_img_keeping_aspect_ratio (img : Image) (hm wm : ℕ) : RescaledImage :=
  let s := rescaleScale img.height img.width hm wm
  let h2 := resizedH img.height img.width hm wm
  let w2 := resizedW img.height img.width hm wm
  let r := resizeNN img h2 w2
  { image :=
      { height := hm
        width := wm
        channels := img.channels
        pixel := fun y x c => if y < h2 ∧ x < w2 then r.pixel y x c else 0 }
    scale := s }

/-- `cv2.cvtColor(·, cv2.COLOR_BGR2RGB)` on a 3-channel image: channel `c`
of the output is channel `2 - c` of the input. -/
def cvtColor_BGR2RGB (img : Image) : Image :=
  { img with pixel := fun y x c => img.pixel y x (2 - c) }

/-- `image.transpose(2, 0, 1)`: reorder axes from HWC to CHW. -/
def transposeCHW (img : Image) : Tensor3 :=
  { dim0 := img.channels
    dim1 := img.height
    dim2 := img.width
    val := fun c y x => img.pixel y x c }

/-- `OTXATSSModelInterpreter.preprocess`: rescale keeping aspect ratio to the
fixed model size, convert BGR to RGB, transpose HWC to CHW, and return the
tensor together with the scale info. -/
def preprocess (img : Image) : Tensor3 × ℚ :=
  let output := rescale_img_keeping_aspect_ratio img h_model w_model
  let rgb := cvtColor_BGR2RGB output.image
  let chw := transposeCHW rgb
  (chw, output.scale)

/-- A model-output box: four coordinates (left, top, right, bottom). -/
structure Box4 where
  x1 : ℚ
  y1 : ℚ
  x2 : ℚ
  y2 : ℚ
deriving DecidableEq

/-- An output bounding-box record: four coordinates in original-image
space, a label index, and an optional confidence score. -/
structure Bbox where
  x1 : ℚ
  y1 : ℚ
  x2 : ℚ
  y2 : ℚ
  label : ℤ
  score : Option ℚ
deriving DecidableEq

/-- The prediction mapping fed to `postprocess`: the required `"boxes"` and
`"labels"` entries, plus whatever further keys the mapping happens to carry
(e.g. per-box confidence scores). -/
structure ModelPred where
  boxes : List Box4
  labels : List ℤ
  extra : List (String × List ℚ)

/-- Modelled from the spec: the missing helper
`create_bboxes_with_rescaling(boxes, labels, r_scale)`.  For every box it
multiplies each of the four coordinates by `r_scale` and pairs the rescaled
box with its positional label to build one bounding-box record, preserving
input ordering.  It receives no score input, so no score is attached. -/
def create_bboxes_with_rescaling (boxes : List Box4) (labels : List ℤ)
    (r_scale : ℚ) : List Bbox :=
  List.zipWith
    (fun b l =>
      { x1 := b.x1 * r_scale
        y1 := b.y1 * r_scale
        x2 := b.x2 * r_scale
        y2 := b.y2 * r_scale
        label := l
        score := none })
    boxes labels

/-- `OTXATSSModelInterpreter.postprocess`: compute `r_scale = 1 / scale`
(Python raises `ZeroDivisionError` on a zero scale, embedded as `none`),
then rescale every box of `pred["boxes"]` and pair it with the positional
label of `pred["labels"]`. -/
def postprocess (pred : ModelPred) (info : ℚ) : Option (List Bbox) :=
  let scale := info
  if scale = 0 then none
  else
    let r_scale := 1 / scale
    some (create_bboxes_with_rescaling pred.boxes pred.labels r_scale)

/-- `OTXATSSModelInterpreter.get_categories`: always returns `None`. -/
def get_categories (_interp : Unit) : Option (List String) := none

/-- Scaling a box by `s`: every coordinate multiplied by `s` (used to state
the round-trip property). -/
def scaleBox (s : ℚ) (b : Box4) : Box4 :=
  { x1 := b.x1 * s, y1 := b.y1 * s, x2 := b.x2 * s, y2 := b.y2 * s }

/-- A solid-colour 3-channel BGR image: channel 0 (blue) is 255, the
others 0 — a pure-blue test image. -/
def solidBlueBGR (h w : ℕ) : Image :=
  { height := h
    width := w
    channels := 3
    pixel := fun _ _ c => if c = 0 then 255 else 0 }

/-- C8: get_categories always returns an absent result (None), for every
instance and regardless of any prior calls or inputs. -/
theorem get_categories_none : ∀ u : Unit, get_categories u = none :=
  fun _ => rfl

/-- C10: postprocess computes the reciprocal 1 / scale before any per-box
work, so a scale of exactly zero fails (ZeroDivisionError, embedded as none)
before any bounding-box record is built, while for every nonzero scale the
reciprocal succeeds and a result list is produced. -/
theorem postprocess_zero_scale (pred : ModelPred) (s : ℚ) :
    postprocess pred 0 = none ∧ (s ≠ 0 → (postprocess pred s).isSome = true) := by
  constructor
  · simp [postprocess]
  · intro hs
    simp [postprocess, hs]

theorem postprocess_zero_scale_witness :
    postprocess { boxes := [⟨1, 2, 3, 4⟩], labels := [0], extra := [] } 0 = none ∧
    (postprocess { boxes := [⟨1, 2, 3, 4⟩], labels := [0], extra := [] } 2).isSome = true :=
  ⟨(postprocess_zero_scale { boxes := [⟨1, 2, 3, 4⟩], labels := [0], extra := [] } 2).1,
   (postprocess_zero_scale { boxes := [⟨1, 2, 3, 4⟩], labels := [0], extra := [] } 2).2
     (by norm_num)⟩

/-- C7 counterexample: with target 736×992, a 368×496 image yields scale 2
(the image is upscaled to fit the target), not 0.5, and the predicted box
[100,100,200,200] postprocesses with that scale to [50,50,100,100], not
[200,200,400,400]. -/
theorem concrete_scenario_counterexample :
    (preprocess (solidBlueBGR 368 496)).2 ≠ 1 / 2 ∧
    postprocess { boxes := [⟨100, 100, 200, 200⟩], labels := [0], extra := [] }
        (preprocess (solidBlueBGR 368 496)).2 ≠
      some [{ x1 := 200, y1 := 200, x2 := 400, y2 := 400, label := 0, score := none }] := by
  have hs : (preprocess (solidBlueBGR 368 496)).2 = 2 := by
    norm_num [preprocess, rescale_img_keeping_aspect_ratio, rescaleScale,
      solidBlueBGR, h_model, w_model]
  rw [hs]
  constructor
  · norm_num
  · norm_num [postprocess, create_bboxes_with_rescaling, Bbox.mk.injEq]

/-- C7 amended: with the fixed model target 736×992, a 368×496 input image
yields scale = 2 (the image is upscaled), and a predicted box
[100,100,200,200] postprocesses to [50,50,100,100]; a 736×1984 input image
yields scale = 992/1984 = 0.5 (width-bound), not the height ratio 736/736 = 1. -/
theorem concrete_scenarios :
    (preprocess (solidBlueBGR 368 496)).2 = 2 ∧
    postprocess { boxes := [⟨100, 100, 200, 200⟩], labels := [0], extra := [] } 2 =
      some [{ x1 := 50, y1 := 50, x2 := 100, y2 := 100, label := 0, score := none }] ∧
    (preprocess (solidBlueBGR 736 1984)).2 = 992 / 1984 ∧
    (preprocess (solidBlueBGR 736 1984)).2 ≠ (736 : ℚ) / 736 := by
  refine ⟨?_, ?_, ?_, ?_⟩ <;>
    norm_num [preprocess, rescale_img_keeping_aspect_ratio, rescaleScale,
      solidBlueBGR, h_model, w_model, postprocess, create_bboxes_with_rescaling]

/-- C5 counterexample: the 368×496 image has height ≤ 736 and width ≤ 992,
yet preprocess returns scale 2, which is not ≤ 1. -/
theorem scale_not_le_one_counterexample :
    (solidBlueBGR 368 496).height ≤ 736 ∧ (solidBlueBGR 368 496).width ≤ 992 ∧
    (preprocess (solidBlueBGR 368 496)).2 = 2 ∧
    ¬(preprocess (solidBlueBGR 368 496)).2 ≤ 1 := by
  refine ⟨by norm_num [solidBlueBGR], by norm_num [solidBlueBGR], ?_, ?_⟩ <;>
    norm_num [preprocess, rescale_img_keeping_aspect_ratio, rescaleScale,
      solidBlueBGR, h_model, w_model]

/-- C5 amended: for every image with positive height ≤ 736 and positive
width ≤ 992 (both dimensions within the fixed target), the scale returned
by preprocess equals min(targetH/height, targetW/width) and satisfies
0 < scale and 1 ≤ scale (the image is upscaled to fit; scale ≤ 1 holds
instead when height ≥ 736 or width ≥ 992). -/
theorem preprocess_scale_bounds (img : Image)
    (hh : 0 < img.height) (hle : img.height ≤ 736)
    (hw : 0 < img.width) (wle : img.width ≤ 992) :
    (preprocess img).2 = min ((h_model : ℚ) / img.height) ((w_model : ℚ) / img.width) ∧
    0 < (preprocess img).2 ∧ 1 ≤ (preprocess img).2 := by
  have hhq : (0 : ℚ) < img.height := by exact_mod_cast hh
  have hwq : (0 : ℚ) < img.width := by exact_mod_cast hw
  refine ⟨rfl, ?_, ?_⟩
  · show 0 < rescaleScale img.height img.width h_model w_model
    unfold rescaleScale h_model w_model
    exact lt_min (by positivity) (by positivity)
  · show 1 ≤ rescaleScale img.height img.width h_model w_model
    unfold rescaleScale h_model w_model
    refine le_min ?_ ?_
    · rw [le_div_iff₀ hhq, one_mul]
      exact_mod_cast hle
    · rw [le_div_iff₀ hwq, one_mul]
      exact_mod_cast wle

theorem preprocess_scale_bounds_witness :
    0 < (solidBlueBGR 368 496).height ∧ (solidBlueBGR 368 496).height ≤ 736 ∧
    0 < (solidBlueBGR 368 496).width ∧ (solidBlueBGR 368 496).width ≤ 992 ∧
    ((preprocess (solidBlueBGR 368 496)).2 =
      min ((h_model : ℚ) / (solidBlueBGR 368 496).height)
        ((w_model : ℚ) / (solidBlueBGR 368 496).width) ∧
     0 < (preprocess (solidBlueBGR 368 496)).2 ∧
     1 ≤ (preprocess (solidBlueBGR 368 496)).2) :=
  ⟨by decide, by decide, by decide, by decide,
   preprocess_scale_bounds (solidBlueBGR 368 496)
     (by decide) (by decide) (by decide) (by decide)⟩

/-- C1: for every 3-channel input image with positive height H and width W,
preprocess returns as its scale info the single scalar
s = min(targetH/H, targetW/W) with targetH, targetW the fixed class-level
model dimensions, and the resized content dimensions are H*s and W*s
rounded to integers. -/
theorem preprocess_scale_resize (img : Image)
    (hh : 0 < img.height) (hw : 0 < img.width) (hc : img.channels = 3) :
    (preprocess img).2 = min ((h_model : ℚ) / img.height) ((w_model : ℚ) / img.width) ∧
    resizedH img.height img.width h_model w_model =
      (round ((img.height : ℚ) * (preprocess img).2)).toNat ∧
    resizedW img.height img.width h_model w_model =
      (round ((img.width : ℚ) * (preprocess img).2)).toNat :=
  ⟨rfl, rfl, rfl⟩

theorem preprocess_scale_resize_witness :
    0 < (solidBlueBGR 10 20).height ∧ 0 < (solidBlueBGR 10 20).width ∧
    (solidBlueBGR 10 20).channels = 3 ∧
    ((preprocess (solidBlueBGR 10 20)).2 =
      min ((h_model : ℚ) / (solidBlueBGR 10 20).height)
        ((w_model : ℚ) / (solidBlueBGR 10 20).width) ∧
     resizedH (solidBlueBGR 10 20).height (solidBlueBGR 10 20).width h_model w_model =
      (round (((solidBlueBGR 10 20).height : ℚ) * (preprocess (solidBlueBGR 10 20)).2)).toNat ∧
     resizedW (solidBlueBGR 10 20).height (solidBlueBGR 10 20).width h_model w_model =
      (round (((solidBlueBGR 10 20).width : ℚ) * (preprocess (solidBlueBGR 10 20)).2)).toNat) :=
  ⟨by decide, by decide, by decide,
   preprocess_scale_resize (solidBlueBGR 10 20) (by decide) (by decide) (by decide)⟩

/-- C2: round-trip — for every list of boxes, every labels list, every
extra-key content and every nonzero scale s, postprocess applied to a
prediction whose boxes are the original boxes with every coordinate
multiplied by s, together with scale info s, recovers every original box
exactly (each coordinate is divided by s; in exact rational arithmetic the
round trip is exact). -/
theorem postprocess_roundtrip (bs : List Box4) (ls : List ℤ)
    (extra : List (String × List ℚ)) (s : ℚ) (hs : s ≠ 0) :
    postprocess { boxes := bs.map (scaleBox s), labels := ls, extra := extra } s =
      some (List.zipWith
        (fun b l => { x1 := b.x1, y1 := b.y1, x2 := b.x2, y2 := b.y2,
                      label := l, score := none : Bbox }) bs ls) := by
  simp only [postprocess, if_neg hs, create_bboxes_with_rescaling,
    List.zipWith_map_left, Option.some.injEq]
  congr 1
  funext b l
  simp [scaleBox, mul_inv_cancel_right₀ hs]

theorem postprocess_roundtrip_witness :
    (2 : ℚ) ≠ 0 ∧
    postprocess { boxes := List.map (scaleBox 2) [⟨1, 2, 3, 4⟩], labels := [5],
                  extra := [] } 2 =
      some (List.zipWith
        (fun (b : Box4) (l : ℤ) => { x1 := b.x1, y1 := b.y1, x2 := b.x2, y2 := b.y2,
                                     label := l, score := none : Bbox })
        [⟨1, 2, 3, 4⟩] [5]) :=
  ⟨by norm_num, postprocess_roundtrip [⟨1, 2, 3, 4⟩] [5] [] 2 (by norm_num)⟩

/-- C4: for every prediction whose boxes and labels have equal length n and
every nonzero scale, postprocess returns exactly n records in input order:
record i is built from box i (each coordinate multiplied by 1/scale) and
label i; the output is fully characterised positionally, so nothing is
deduplicated, filtered, sorted or clipped. -/
theorem postprocess_count_order (pred : ModelPred) (s : ℚ)
    (hlen : pred.boxes.length = pred.labels.length) (hs : s ≠ 0) :
    postprocess pred s =
      some (create_bboxes_with_rescaling pred.boxes pred.labels (1 / s)) ∧
    (create_bboxes_with_rescaling pred.boxes pred.labels (1 / s)).length =
      pred.boxes.length ∧
    ∀ i (hi : i < pred.boxes.length) (hi2 : i < pred.labels.length)
      (hi3 : i < (create_bboxes_with_rescaling pred.boxes pred.labels (1 / s)).length),
      (create_bboxes_with_rescaling pred.boxes pred.labels (1 / s)).get ⟨i, hi3⟩ =
        { x1 := (pred.boxes.get ⟨i, hi⟩).x1 * (1 / s)
          y1 := (pred.boxes.get ⟨i, hi⟩).y1 * (1 / s)
          x2 := (pred.boxes.get ⟨i, hi⟩).x2 * (1 / s)
          y2 := (pred.boxes.get ⟨i, hi⟩).y2 * (1 / s)
          label := pred.labels.get ⟨i, hi2⟩
          score := none } := by
  refine ⟨by simp [postprocess, hs], ?_, ?_⟩
  · simp [create_bboxes_with_rescaling, List.length_zipWith, hlen]
  · intro i hi hi2 hi3
    simp [create_bboxes_with_rescaling, List.get_eq_getElem, List.getElem_zipWith]

theorem postprocess_count_order_witness :
    ({ boxes := [⟨1, 2, 3, 4⟩, ⟨5, 6, 7, 8⟩], labels := [1, 2],
       extra := [] } : ModelPred).boxes.length =
      ({ boxes := [⟨1, 2, 3, 4⟩, ⟨5, 6, 7, 8⟩], labels := [1, 2],
         extra := [] } : ModelPred).labels.length ∧
    (4 : ℚ) ≠ 0 ∧
    (postprocess { boxes := [⟨1, 2, 3, 4⟩, ⟨5, 6, 7, 8⟩], labels := [1, 2],
                   extra := [] } 4 =
      some (create_bboxes_with_rescaling [⟨1, 2, 3, 4⟩, ⟨5, 6, 7, 8⟩] [1, 2] (1 / 4)) ∧
     (create_bboxes_with_rescaling [⟨1, 2, 3, 4⟩, ⟨5, 6, 7, 8⟩] [1, 2] (1 / 4)).length = 2) :=
  ⟨by decide, by norm_num,
   (postprocess_count_order
       { boxes := [⟨1, 2, 3, 4⟩, ⟨5, 6, 7, 8⟩], labels := [1, 2], extra := [] } 4
       (by decide) (by norm_num)).1,
   (postprocess_count_order
       { boxes := [⟨1, 2, 3, 4⟩, ⟨5, 6, 7, 8⟩], labels := [1, 2], extra := [] } 4
       (by decide) (by norm_num)).2.1⟩

/-- C3: for every pure-blue 3-channel BGR solid image with positive height
and width, the preprocessed tensor is channel-first with first-axis length 3
and spatial extent exactly 736 × 992; inside the resized-content region the
blue value 255 sits at channel index 2 (BGR to RGB swap) with channels 0 and
1 zero, and outside that region (right/bottom remainder) every channel is
zero padding. -/
theorem preprocess_channel_layout (h w : ℕ) (hh : 0 < h) (hw : 0 < w) :
    ((preprocess (solidBlueBGR h w)).1.dim0 = 3 ∧
     (preprocess (solidBlueBGR h w)).1.dim1 = 736 ∧
     (preprocess (solidBlueBGR h w)).1.dim2 = 992) ∧
    (∀ y x, y < resizedH h w h_model w_model → x < resizedW h w h_model w_model →
      ((preprocess (solidBlueBGR h w)).1.val 2 y x = 255 ∧
       (preprocess (solidBlueBGR h w)).1.val 1 y x = 0 ∧
       (preprocess (solidBlueBGR h w)).1.val 0 y x = 0)) ∧
    (∀ c y x, c < 3 →
      ¬(y < resizedH h w h_model w_model ∧ x < resizedW h w h_model w_model) →
      (preprocess (solidBlueBGR h w)).1.val c y x = 0) := by
  refine ⟨⟨rfl, rfl, rfl⟩, ?_, ?_⟩
  · intro y x hy hx
    simp [preprocess, rescale_img_keeping_aspect_ratio, cvtColor_BGR2RGB,
      transposeCHW, resizeNN, solidBlueBGR, hy, hx]
  · intro c y x hc hcond
    simp [preprocess, rescale_img_keeping_aspect_ratio, cvtColor_BGR2RGB,
      transposeCHW, resizeNN, solidBlueBGR, hcond]

theorem preprocess_channel_layout_witness :
    0 < 368 ∧ 0 < 496 ∧
    (((preprocess (solidBlueBGR 368 496)).1.dim0 = 3 ∧
      (preprocess (solidBlueBGR 368 496)).1.dim1 = 736 ∧
      (preprocess (solidBlueBGR 368 496)).1.dim2 = 992) ∧
     (∀ y x, y < resizedH 368 496 h_model w_model →
       x < resizedW 368 496 h_model w_model →
       ((preprocess (solidBlueBGR 368 496)).1.val 2 y x = 255 ∧
        (preprocess (solidBlueBGR 368 496)).1.val 1 y x = 0 ∧
        (preprocess (solidBlueBGR 368 496)).1.val 0 y x = 0)) ∧
     (∀ c y x, c < 3 →
       ¬(y < resizedH 368 496 h_model w_model ∧ x < resizedW 368 496 h_model w_model) →
       (preprocess (solidBlueBGR 368 496)).1.val c y x = 0)) :=
  ⟨by decide, by decide, preprocess_channel_layout 368 496 (by decide) (by decide)⟩

theorem create_bboxes_score_none (bs : List Box4) (ls : List ℤ) (r : ℚ) (a : Bbox)
    (ha : a ∈ create_bboxes_with_rescaling bs ls r) : a.score = none := by
  unfold create_bboxes_with_rescaling at ha
  obtain ⟨i, hi, h⟩ := List.mem_iff_getElem.mp ha
  rw [← h, List.getElem_zipWith]

/-- C6 counterexample: a prediction carrying per-box confidence scores under
the separate key "scores" yields the same output as the prediction without
that key, and the returned record carries score none rather than the 9/10
from the scores entry — the scores key is not consumed. -/
theorem scores_ignored_counterexample :
    postprocess { boxes := [⟨10, 20, 30, 40⟩], labels := [7],
                  extra := [("scores", [9 / 10])] } 1 =
      some [{ x1 := 10, y1 := 20, x2 := 30, y2 := 40, label := 7, score := none }] ∧
    postprocess { boxes := [⟨10, 20, 30, 40⟩], labels := [7],
                  extra := [("scores", [9 / 10])] } 1 =
      postprocess { boxes := [⟨10, 20, 30, 40⟩], labels := [7], extra := [] } 1 := by
  constructor <;> norm_num [postprocess, create_bboxes_with_rescaling]

/-- C6 amended: postprocess reads only the boxes and labels entries of the
prediction mapping; any further key (such as per-box confidence scores) does
not affect the result, and every returned record carries no score. -/
theorem postprocess_ignores_extra (p q : ModelPred) (s : ℚ)
    (hb : p.boxes = q.boxes) (hl : p.labels = q.labels) :
    postprocess p s = postprocess q s ∧
    ∀ anns, postprocess p s = some anns → ∀ a ∈ anns, a.score = none := by
  constructor
  · simp [postprocess, hb, hl]
  · intro anns hanns a ha
    by_cases hs : s = 0
    · subst hs
      simp [postprocess] at hanns
    · simp only [postprocess, if_neg hs, Option.some.injEq] at hanns
      subst hanns
      exact create_bboxes_score_none _ _ _ a ha

theorem postprocess_ignores_extra_witness :
    ({ boxes := [⟨10, 20, 30, 40⟩], labels := [7],
       extra := [("scores", [9 / 10])] } : ModelPred).boxes =
      ({ boxes := [⟨10, 20, 30, 40⟩], labels := [7], extra := [] } : ModelPred).boxes ∧
    ({ boxes := [⟨10, 20, 30, 40⟩], labels := [7],
       extra := [("scores", [9 / 10])] } : ModelPred).labels =
      ({ boxes := [⟨10, 20, 30, 40⟩], labels := [7], extra := [] } : ModelPred).labels ∧
    postprocess { boxes := [⟨10, 20, 30, 40⟩], labels := [7],
                  extra := [("scores", [9 / 10])] } 1 =
      postprocess { boxes := [⟨10, 20, 30, 40⟩], labels := [7], extra := [] } 1 :=
  ⟨rfl, rfl,
   (postprocess_ignores_extra
       { boxes := [⟨10, 20, 30, 40⟩], labels := [7], extra := [("scores", [9 / 10])] }
       { boxes := [⟨10, 20, 30, 40⟩], labels := [7], extra := [] } 1 rfl rfl).1⟩
